import Mathlib

/-!
Verification of the proxy-chain engine of this repository: the SOCKS4,
SOCKS5 and HTTP CONNECT protocol clients and the chain orchestrator,
shallowly embedded from the JavaScript sources (`chainEngine.js`,
`socks4.js`, `socks5.js`, `httpConnect.js`).  Bytes are modelled as `Nat`
(always < 256 by construction), byte streams as `List Nat`, text streams
as `List Char`, and the event-driven socket reads as explicit
stream-consuming functions.
-/

namespace ProxyChain

/-- JavaScript truthiness of an optional string value: `undefined` and the
empty string are falsy, every other string is truthy. -/
def truthy : Option String → Bool
  | none => false
  | some s => !(s == "")

/-- A JavaScript object literal with string-valued fields, modelled as an
association list of field names to values. -/
abbrev JSObj := List (String × String)

/-- Optional-chaining field access `obj?.key`: `none` if the object is
`undefined` or the field is absent. -/
def jsGet (o : Option JSObj) (k : String) : Option String :=
  match o with
  | none => none
  | some fields => (fields.find? (fun kv => kv.1 == k)).map (fun kv => kv.2)

/-- UTF-8 encoding of one character, as `TextEncoder` produces it. -/
def utf8EncodeChar (c : Char) : List Nat :=
  let n := c.toNat
  if n < 0x80 then [n]
  else if n < 0x800 then [0xC0 ||| (n >>> 6), 0x80 ||| (n &&& 0x3F)]
  else if n < 0x10000 then
    [0xE0 ||| (n >>> 12), 0x80 ||| ((n >>> 6) &&& 0x3F), 0x80 ||| (n &&& 0x3F)]
  else
    [0xF0 ||| (n >>> 18), 0x80 ||| ((n >>> 12) &&& 0x3F),
     0x80 ||| ((n >>> 6) &&& 0x3F), 0x80 ||| (n &&& 0x3F)]

/-- UTF-8 encoding of a string (`new TextEncoder().encode(s)`). -/
def utf8Encode (s : String) : List Nat :=
  s.data.foldr (fun c acc => utf8EncodeChar c ++ acc) []

/-- Hexadecimal-digit test, the character class `[0-9a-fA-F]`. -/
def isHexDigitCh (c : Char) : Bool :=
  c.isDigit || ('a' ≤ c && c ≤ 'f') || ('A' ≤ c && c ≤ 'F')

/-- Split a character list at every `'.'`, keeping empty groups, exactly as
JavaScript `s.split('.')` does. -/
def splitOnDot : List Char → List (List Char)
  | [] => [[]]
  | c :: rest =>
    if c = '.' then [] :: splitOnDot rest
    else
      match splitOnDot rest with
      | [] => [[c]]
      | g :: gs => (c :: g) :: gs

/-- Numeric value of a decimal digit group (`parseInt(part, 10)` applied to a
group of decimal digits). -/
def digitsToNat (l : List Char) : Nat :=
  l.foldl (fun acc c => acc * 10 + (c.toNat - '0'.toNat)) 0

/-- One group of the dotted-quad regex: between 1 and 3 decimal digits. -/
def isDigits1to3 (l : List Char) : Bool :=
  decide (1 ≤ l.length) && decide (l.length ≤ 3) && l.all Char.isDigit

/-- Match of the anchored regex `^(\d{1,3}\.){3}\d{1,3}$` used by both the
SOCKS4 and the SOCKS5 `isIPv4`: exactly four dot-separated groups of 1-3
decimal digits. -/
def ipv4RegexMatch (s : String) : Bool :=
  match splitOnDot s.data with
  | [a, b, c, d] => isDigits1to3 a && isDigits1to3 b && isDigits1to3 c && isDigits1to3 d
  | _ => false

namespace Socks5

/-- socks5.js `isIPv6`: the regex `^[0-9a-fA-F:]+$` together with
`address.includes(':')`. -/
def isIPv6Str (s : String) : Bool :=
  s.data.all (fun c => isHexDigitCh c || c == ':') && s.data.any (fun c => c == ':')

/-- socks5.js `isIPv4`: the dotted-quad regex only — unlike the SOCKS4
variant it performs no 0..=255 range check on the octets. -/
def isIPv4Str (s : String) : Bool := ipv4RegexMatch s

/-- socks5.js `getAddressType`: returns the SOCKS5 ATYP constant,
`0x04` = IPv6 (checked first), `0x01` = IPv4, `0x03` = domain. -/
def getAddressType (s : String) : Nat :=
  if isIPv6Str s then 4 else if isIPv4Str s then 1 else 3

/-- Modelled from the spec's words for claim C7 only: the claimed IPv4 set,
four dot-separated decimal groups of 1-3 digits with every octet in 0..=255.
Compared against the source's `isIPv4Str`, which omits the range check. -/
def specIsIPv4 (s : String) : Bool :=
  match splitOnDot s.data with
  | [a, b, c, d] =>
    (isDigits1to3 a && decide (digitsToNat a ≤ 255)) &&
    (isDigits1to3 b && decide (digitsToNat b ≤ 255)) &&
    (isDigits1to3 c && decide (digitsToNat c ≤ 255)) &&
    (isDigits1to3 d && decide (digitsToNat d ≤ 255))
  | _ => false

end Socks5

namespace Socks4

/-- socks4.js `isIPv4`: the dotted-quad regex plus the 0..=255 range check
on every group. -/
def isIPv4Str (s : String) : Bool :=
  ipv4RegexMatch s && (splitOnDot s.data).all (fun g => decide (digitsToNat g ≤ 255))

/-- socks4.js `ipv4ToBytes`: the four dot-separated groups as bytes. -/
def ipv4ToBytes (s : String) : List Nat :=
  (splitOnDot s.data).map digitsToNat

/-- socks4.js `_sendConnectRequest`, request-building part.  Note the source
allocates a 9-byte buffer (`new Uint8Array(9)`), fills indices 0-7, and then
copies all nine bytes, so a stray `0x00` at index 8 precedes the userid. -/
def requestBytes (address : String) (port : Nat) (userid : Option String)
    (isSOCKS4a : Bool) : List Nat :=
  let header := [0x04, 0x01, (port >>> 8) &&& 0xFF, port &&& 0xFF]
  let dstIp := if isSOCKS4a then [0, 0, 0, 1] else ipv4ToBytes address
  let uid := if truthy userid then utf8Encode (userid.getD "") else []
  (header ++ dstIp ++ [0]) ++ uid ++ [0] ++
    (if isSOCKS4a then utf8Encode address ++ [0] else [])

/-- socks4.js `SOCKS4Protocol.connect`, up to the point where the CONNECT
request has been written to the socket: input validation, SOCKS4 vs SOCKS4a
selection (`isSOCKS4a = !isIPv4(address)`), and the request bytes that go on
the wire.  The result is the request packet sent, or the thrown error. -/
def connect (address : String) (port : Nat) (userid : Option String) :
    Except String (List Nat) :=
  if address = "" then .error "Invalid target address"
  else if port < 1 || port > 65535 then .error "Invalid target port: must be 1-65535"
  else
    let isSOCKS4a := !isIPv4Str address
    .ok (requestBytes address port userid isSOCKS4a)

/-- The userid field as it sits on the wire: the bytes of the request from
offset 8 up to (excluding) the first NUL terminator. -/
def useridOnWire (req : List Nat) : List Nat :=
  (req.drop 8).takeWhile (fun b => b ≠ 0)

end Socks4

namespace Http

/-- httpConnect.js `readLine`, over a character stream: the line before the
first CRLF together with the stream after the CRLF; `none` when no CRLF
arrives (the source then rejects with a read timeout).  The model fixes the
most favourable chunking — the transport delivers the stream byte by byte —
so each `readLine` consumes exactly through the first CRLF. -/
def takeUntilCRLF : List Char → Option (List Char × List Char)
  | [] => none
  | '\r' :: '\n' :: rest => some ([], rest)
  | c :: rest =>
    match takeUntilCRLF rest with
    | some (line, rem) => some (c :: line, rem)
    | none => none

/-- JavaScript `line.indexOf(':')`: position of the first colon, `none`
standing for the source's `-1`. -/
def colonIdx : List Char → Option Nat
  | [] => none
  | c :: rest => if c = ':' then some 0 else (colonIdx rest).map (fun i => i + 1)

/-- Whitespace for JavaScript `String.prototype.trim` (the cases relevant to
header text). -/
def isWSCh (c : Char) : Bool :=
  c == ' ' || c == '\t' || c == '\r' || c == '\n'

/-- JavaScript `trim`: strip whitespace from both ends. -/
def trimChars (l : List Char) : List Char :=
  ((l.dropWhile isWSCh).reverse.dropWhile isWSCh).reverse

/-- Assignment `headers[name] = value` on a JavaScript object: overwrite an
existing field in place, otherwise append. -/
def setKey (m : List (String × String)) (k v : String) : List (String × String) :=
  if m.any (fun kv => kv.1 == k) then
    m.map (fun kv => if kv.1 == k then (k, v) else kv)
  else m ++ [(k, v)]

/-- One iteration of the header loop in `_sendConnectRequest`: a line is
stored only when its first colon sits at a positive index; the name is
trimmed and lower-cased, the value trimmed.  Any other line is skipped. -/
def parseHeaderLine (m : List (String × String)) (line : String) :
    List (String × String) :=
  match colonIdx line.data with
  | some i =>
    if 0 < i then
      setKey m (String.mk ((trimChars (line.data.take i)).map Char.toLower))
        (String.mk (trimChars (line.data.drop (i + 1))))
    else m
  | none => m

/-- The header map accumulated by the header loop over the given lines. -/
def parseHeaderMap (lines : List String) : List (String × String) :=
  lines.foldl parseHeaderLine []

/-- Does the header loop store this line?  Mirrors `colonIndex > 0`. -/
def storedHeaderLine (line : String) : Bool :=
  match colonIdx line.data with
  | some i => decide (0 < i)
  | none => false

/-- The header-reading loop: CRLF-delimited lines until the first empty
line, returning the lines (as strings) and the stream after the blank
line's CRLF.  Fuel bounds the recursion; the callers pass the stream
length, which suffices since every line consumes at least two characters. -/
def readHeaders : Nat → List Char → Option (List String × List Char)
  | 0, _ => none
  | fuel + 1, s =>
    match takeUntilCRLF s with
    | none => none
    | some (line, rest) =>
      if line = [] then some ([], rest)
      else
        match readHeaders fuel rest with
        | none => none
        | some (lines, rem) => some (String.mk line :: lines, rem)

/-- Decimal digit value. -/
def digitVal (c : Char) : Nat := c.toNat - '0'.toNat

/-- The status-line regex `^HTTP\/1\.[01] (\d{3}) (.*)$`: status code and
reason phrase, or `none` for `Invalid HTTP response`. -/
def parseStatusLine : List Char → Option (Nat × String)
  | 'H' :: 'T' :: 'T' :: 'P' :: '/' :: '1' :: '.' :: v :: ' ' :: d1 :: d2 :: d3 :: ' ' :: rest =>
    if (v = '0' || v = '1') && d1.isDigit && d2.isDigit && d3.isDigit then
      some (digitVal d1 * 100 + digitVal d2 * 10 + digitVal d3, String.mk rest)
    else none
  | _ => none

/-- Result of a successful HTTP CONNECT negotiation, as `_sendConnectRequest`
returns it (the echoed `address`/`port` fields are omitted; `remainingData`
is the data drained after the headers). -/
structure HttpResult where
  statusCode : Nat
  statusMessage : String
  headers : List (String × String)
  remainingData : String
deriving DecidableEq, Repr

/-- httpConnect.js `_sendConnectRequest`, response side.  The server's bytes
are split into `avail` — everything that arrives before `readRemainingData`'s
quiet-period timeout closes — and `later`.  The client reads the status line,
then header lines until the blank line, fails on a non-200 status, and on 200
calls `readRemainingData`, which drains the whole rest of `avail`.  The
second component of the result is the part of the stream the client did not
consume. -/
def handleResponse (avail later : List Char) :
    Except String (HttpResult × List Char) :=
  match takeUntilCRLF avail with
  | none => .error "Read line timeout"
  | some (statusLine, afterStatus) =>
    match parseStatusLine statusLine with
    | none => .error ("Invalid HTTP response: " ++ String.mk statusLine)
    | some (statusCode, statusMessage) =>
      match readHeaders afterStatus.length afterStatus with
      | none => .error "Read line timeout"
      | some (lines, afterHeaders) =>
        if statusCode ≠ 200 then
          .error ("HTTP CONNECT failed (" ++ toString statusCode ++ " " ++ statusMessage ++ ")")
        else
          .ok ({ statusCode := statusCode, statusMessage := statusMessage,
                 headers := parseHeaderMap lines,
                 remainingData := String.mk afterHeaders }, later)

end Http

namespace Socks5

/-- socks5.js `readBytes` over an explicit byte stream: exactly `n` bytes and
the rest of the stream, or `none` when the stream ends first. -/
def readBytesS (n : Nat) (s : List Nat) : Option (List Nat × List Nat) :=
  if n ≤ s.length then some (s.take n, s.drop n) else none

/-- JavaScript indexing `buf[i]` on a byte buffer (always in bounds where the
source uses it; out-of-range reads give `undefined`, modelled as 0). -/
def byteAt : List Nat → Nat → Nat
  | [], _ => 0
  | b :: _, 0 => b
  | _ :: t, i + 1 => byteAt t i

/-- socks5.js `sendGreeting`, request side: the advertised method list.
`0x00` (no-auth) always; `0x02` (username/password) appended exactly when
`requiresAuth` holds. -/
def greetingMethods (requiresAuth : Bool) : List Nat :=
  if requiresAuth then [0x00, 0x02] else [0x00]

/-- The greeting packet `[0x05, nmethods, methods…]`. -/
def greetingBytes (requiresAuth : Bool) : List Nat :=
  0x05 :: (greetingMethods requiresAuth).length :: greetingMethods requiresAuth

/-- socks5.js `connect`: `requiresAuth = !!(auth && (auth.username ||
auth.password))`, evaluated on the auth object the orchestrator passed. -/
def requiresAuthOf (auth : Option JSObj) : Bool :=
  match auth with
  | none => false
  | some o => truthy (jsGet (some o) "username") || truthy (jsGet (some o) "password")

/-- Result of a successful SOCKS5 CONNECT as `sendConnectRequest` returns it:
the response ATYP, the `address` field (which the source sets to the
*requested* target address), and the bound port parsed from the response. -/
structure ConnectResult where
  addressType : Nat
  address : String
  port : Nat
deriving DecidableEq, Repr

/-- socks5.js `sendConnectRequest`, response side.  Reads the fixed 4-byte
header, validates version / reply code / reserved byte, sizes the
bound-address block by the response ATYP (IPv4 4, IPv6 16, domain one length
octet plus that many bytes), then reads the block plus a 2-byte port in one
`readBytes(addressLength + 2)`.  Returns the result together with the
unconsumed rest of the stream. -/
def handleConnectResponse (address : String) (stream : List Nat) :
    Except String (ConnectResult × List Nat) :=
  match readBytesS 4 stream with
  | none => .error "Socket error while reading bytes"
  | some (hdr, rest) =>
    if Socks5.byteAt hdr 0 ≠ 5 then .error "Invalid response version"
    else if Socks5.byteAt hdr 1 ≠ 0 then .error "CONNECT request failed"
    else if Socks5.byteAt hdr 2 ≠ 0 then .error "Invalid reserved field in response"
    else
      let atyp := Socks5.byteAt hdr 3
      let lenAndRest : Except String (Nat × List Nat) :=
        if atyp = 1 then .ok (4, rest)
        else if atyp = 4 then .ok (16, rest)
        else if atyp = 3 then
          match readBytesS 1 rest with
          | none => .error "Socket error while reading bytes"
          | some (lenByte, rest2) => .ok (Socks5.byteAt lenByte 0, rest2)
        else .error "Unsupported address type in response"
      match lenAndRest with
      | .error e => .error e
      | .ok (addressLength, rest2) =>
        match readBytesS (addressLength + 2) rest2 with
        | none => .error "Socket error while reading bytes"
        | some (addressAndPort, rest3) =>
          let bindPort :=
            (Socks5.byteAt addressAndPort addressLength <<< 8) |||
              Socks5.byteAt addressAndPort (addressLength + 1)
          .ok ({ addressType := atyp, address := address, port := bindPort }, rest3)

end Socks5

namespace Engine

/-- One hop descriptor as stored in a chain (`address`, `port`, `type`,
optional credentials). -/
structure ProxyDesc where
  address : String
  port : Nat
  ptype : String
  username : Option String := none
  password : Option String := none
deriving DecidableEq, Repr

/-- chainEngine.js `_connectThroughProxy`: the auth object handed to every
protocol handler.  It exists only when *both* `proxy.username` and
`proxy.password` are truthy, and its fields are named `username` and
`password` (there is no `userid` field). -/
def engineAuthObj (p : ProxyDesc) : Option JSObj :=
  if truthy p.username && truthy p.password then
    some [("username", p.username.getD ""), ("password", p.password.getD "")]
  else none

/-- The SOCKS5 greeting method list the engine produces for a hop: the
handler's `requiresAuth` evaluated on the engine's auth object. -/
def greetingMethodsFor (p : ProxyDesc) : List Nat :=
  Socks5.greetingMethods (Socks5.requiresAuthOf (engineAuthObj p))

/-- The userid argument reaching `SOCKS4Protocol._sendConnectRequest` for a
hop: the source passes `auth?.userid`, read off the engine's auth object. -/
def socks4UseridArg (p : ProxyDesc) : Option String :=
  jsGet (engineAuthObj p) "userid"

/-- The SOCKS4 CONNECT outcome for a hop as driven by the engine: request
bytes written to the wire, or the thrown error. -/
def socks4ConnectFor (p : ProxyDesc) (address : String) (port : Nat) :
    Except String (List Nat) :=
  Socks4.connect address port (socks4UseridArg p)

/-- Kind tag of a step record (`type` field of the pushed objects). -/
inductive StepKind where
  | direct
  | proxy_to_proxy
  | proxy_to_target
deriving DecidableEq, Repr

/-- A step record as `_buildChainInternal` pushes it onto
`connectionInfo.steps` (the wall-clock `timestamp` and the constant
`success: true` fields are omitted). -/
structure StepRec where
  step : Nat
  kind : StepKind
  proxy : ProxyDesc
  target : Option String := none
  nextProxy : Option String := none
deriving DecidableEq, Repr

/-- The observable actions of one `buildChain` attempt on its transport and
on the engine's `activeConnections` set, in program order. -/
inductive Ev where
  | openSock
  | addActive
  | pushStep (s : StepRec)
  | closeSock
  | removeActive
deriving DecidableEq, Repr

/-- The per-attempt state of the transport: whether it currently sits in
`activeConnections` and whether `close()` has been invoked on it. -/
structure SockState where
  inActive : Bool
  closed : Bool
deriving DecidableEq, Repr

/-- Effect of one action on the transport state. -/
def applyEv (st : SockState) : Ev → SockState
  | .addActive => { st with inActive := true }
  | .removeActive => { st with inActive := false }
  | .closeSock => { st with closed := true }
  | _ => st

/-- Transport state after a sequence of actions, starting from a socket that
is neither registered nor closed. -/
def finalState (evs : List Ev) : SockState :=
  evs.foldl applyEv { inActive := false, closed := false }

/-- The hop loop of `_buildChainInternal` (the `chain.proxies.length > 1`
path), from hop index `i` over the remaining hops.  `script` abstracts
`_connectThroughProxy`: one boolean per hop, the outcome of the negotiation
after the engine's internal retries.  An intermediate hop pushes a
`proxy_to_proxy` record naming the next hop, the last hop pushes a
`proxy_to_target` record and returns; the first failure runs the `catch`
block, which closes the socket and removes it from `activeConnections`. -/
def loopHops : List ProxyDesc → List Bool → Nat → String → Nat → List Ev × Bool
  | [], _, _, _, _ => ([], true)
  | [p], script, i, tA, tP =>
    if script.headD false then
      ([.pushStep { step := i + 1, kind := .proxy_to_target, proxy := p,
                    target := some (tA ++ ":" ++ toString tP) }], true)
    else ([.closeSock, .removeActive], false)
  | p :: q :: rest, script, i, tA, tP =>
    if script.headD false then
      let next := loopHops (q :: rest) script.tail (i + 1) tA tP
      (.pushStep { step := i + 1, kind := .proxy_to_proxy, proxy := p,
                   nextProxy := some (q.address ++ ":" ++ toString q.port) } :: next.1,
       next.2)
    else ([.closeSock, .removeActive], false)

/-- chainEngine.js `_buildChainInternal` as an action trace plus success
flag.  `openOk` abstracts `_createDirectConnection` (on failure nothing was
registered: `currentSocket` is still null when the `catch` runs).  On a
successful open the socket is added to `activeConnections` and the
`direct` record pushed.  A single-proxy chain negotiates the target on the
first hop and returns **without pushing any further record**; longer chains
run the hop loop. -/
def internalRun (proxies : List ProxyDesc) (tA : String) (tP : Nat)
    (openOk : Bool) (script : List Bool) : List Ev × Bool :=
  match proxies with
  | [] => ([], false)
  | p0 :: rest =>
    if !openOk then ([], false)
    else
      let pre : List Ev :=
        [.openSock, .addActive, .pushStep { step := 1, kind := .direct, proxy := p0 }]
      if rest = [] then
        if script.headD false then (pre, true)
        else (pre ++ [.closeSock, .removeActive], false)
      else
        let l := loopHops (p0 :: rest) script 0 tA tP
        (pre ++ l.1, l.2)

/-- chainEngine.js `buildChain`: argument validation, then
`Promise.race([connectionPromise, totalTimeoutPromise])`.  `timeoutAt =
some k` means the total timeout fires after the internal build has performed
`k` of its actions; if `k` is smaller than the full trace the race is won by
the timeout and `buildChain` throws, with the internal attempt frozen at
those `k` actions.  The `catch` block's `if (currentSocket) cleanup` is dead
code — `buildChain`'s own `currentSocket` is never assigned — so the timeout
path adds no cleanup actions. -/
def buildChainRun (proxies : List ProxyDesc) (tA : String) (tP : Nat)
    (openOk : Bool) (script : List Bool) (timeoutAt : Option Nat) :
    List Ev × Bool :=
  if proxies.isEmpty || tA = "" || tP = 0 then ([], false)
  else
    let r := internalRun proxies tA tP openOk script
    match timeoutAt with
    | none => r
    | some k => if k < r.1.length then (r.1.take k, false) else r

/-- The step records pushed during a run, in order. -/
def stepsOf (evs : List Ev) : List StepRec :=
  evs.filterMap (fun e => match e with | .pushStep s => some s | _ => none)

/-- Engine-level operations on one `ProxyChainEngine` instance, each tagged
with the socket object (a numeric identity) of the attempt it concerns.
`buildOk` is a successful `buildChain` (the socket was added at open time and
is never removed on success); `buildErr` is a `buildChain` whose internal
build failed (added, then closed and removed by the internal `catch`);
`timeoutBuild` is an attempt cut off by the total timeout after its open
(added, never removed — see C1); `callerClose` is the caller invoking
`close()` on a returned tunnel, which does not touch the engine's set;
`closeAll` is `closeAllConnections()`. -/
inductive EngineOp where
  | buildOk (sock : Nat)
  | buildErr (sock : Nat)
  | timeoutBuild (sock : Nat)
  | callerClose (sock : Nat)
  | closeAll
deriving DecidableEq, Repr

/-- Engine state: the `activeConnections` set (as a duplicate-free list) and
the log of sockets on which the engine or caller invoked `close()`. -/
structure EngState where
  active : List Nat
  closedSocks : List Nat
deriving DecidableEq, Repr

/-- Effect of one engine-level operation, following `_buildChainInternal`
(`add` on open, `delete` in the catch), `closeAllConnections`
(`_cleanupSocket` on every member, then `clear`), and the fact that a
returned tunnel's `close()` by the caller does not touch the set. -/
def applyOp (st : EngState) : EngineOp → EngState
  | .buildOk s => { st with active := st.active.insert s }
  | .buildErr s =>
    { active := (st.active.insert s).erase s,
      closedSocks := st.closedSocks ++ [s] }
  | .timeoutBuild s => { st with active := st.active.insert s }
  | .callerClose s => { st with closedSocks := st.closedSocks ++ [s] }
  | .closeAll => { active := [], closedSocks := st.closedSocks ++ st.active }

/-- Engine state after a sequence of operations. -/
def runOps (st : EngState) (ops : List EngineOp) : EngState :=
  ops.foldl applyOp st

/-- chainEngine.js `getStats().activeConnections`: the size of the live set. -/
def getStatsActive (st : EngState) : Nat :=
  st.active.length

end Engine

/-! Helper lemmas about the address classifiers. -/

theorem splitOnDot_no_dot : ∀ (l : List Char), '.' ∉ l → splitOnDot l = [l]
  | [], _ => rfl
  | c :: rest, h => by
    have hc : ¬(c = '.') := fun hh => h (hh ▸ List.mem_cons_self c rest)
    have hr : '.' ∉ rest := fun hh => h (List.mem_cons_of_mem c hh)
    unfold splitOnDot
    rw [if_neg hc, splitOnDot_no_dot rest hr]

theorem ipv4RegexMatch_dot {s : String} (h : ipv4RegexMatch s = true) :
    '.' ∈ s.data := by
  by_contra hnd
  rw [ipv4RegexMatch, splitOnDot_no_dot _ hnd] at h
  exact Bool.false_ne_true h

theorem isIPv6_no_dot {s : String} (h : Socks5.isIPv6Str s = true) :
    '.' ∉ s.data := by
  intro hd
  rw [Socks5.isIPv6Str, Bool.and_eq_true] at h
  have hall := List.all_eq_true.mp h.1 '.' hd
  exact absurd hall (by decide)

theorem ipv4_not_ipv6 {s : String} (h4 : Socks5.isIPv4Str s = true) :
    Socks5.isIPv6Str s = false := by
  cases h6 : Socks5.isIPv6Str s
  · rfl
  · exact absurd (ipv4RegexMatch_dot h4) (isIPv6_no_dot h6)

/-- Claim C7, counterexample: the source's classifier performs no octet-range
check, so `"300.0.0.0"` — which the claim places in the domain class because
300 > 255 — is classified as IPv4 (`ATYP = 0x01`). -/
theorem c7_octet_range_counterexample :
    Socks5.getAddressType "300.0.0.0" = 1 ∧
    Socks5.specIsIPv4 "300.0.0.0" = false :=
  ⟨by decide, by decide⟩

/-- Claim C7 (amended): the SOCKS5 address-type classifier is a total
function on strings; it returns IPv6 (4) exactly for strings made only of
hex digits and colons containing at least one colon, IPv4 (1) exactly for
strings of four dot-separated decimal groups of 1-3 digits — with no check
that each octet is at most 255 — and domain (3) for all other strings. -/
theorem c7_classifier_amended (s : String) :
    (Socks5.getAddressType s = 4 ↔ Socks5.isIPv6Str s = true) ∧
    (Socks5.getAddressType s = 1 ↔ Socks5.isIPv4Str s = true) ∧
    (Socks5.getAddressType s = 3 ↔
      (Socks5.isIPv6Str s = false ∧ Socks5.isIPv4Str s = false)) := by
  cases h6 : Socks5.isIPv6Str s
  · cases h4 : Socks5.isIPv4Str s
    · simp [Socks5.getAddressType, h6, h4]
    · simp [Socks5.getAddressType, h6, h4]
  · have h4 : Socks5.isIPv4Str s = false := by
      cases h4 : Socks5.isIPv4Str s
      · rfl
      · exact absurd h6 (by rw [ipv4_not_ipv6 h4]; exact Bool.false_ne_true)
    simp [Socks5.getAddressType, h6, h4]

/-- A SOCKS5 hop descriptor that carries a username but no password. -/
def socks5UserOnly : Engine.ProxyDesc :=
  { address := "proxy.example", port := 1080, ptype := "socks5",
    username := some "u" }

/-- Claim C5, counterexample: for a hop carrying only a username the claim
requires method `0x02` in the greeting, but the engine builds an auth object
only when *both* username and password are truthy, so the greeting advertises
`0x00` alone. -/
theorem c5_username_only_counterexample :
    ¬ (2 ∈ Engine.greetingMethodsFor socks5UserOnly ↔
        (truthy socks5UserOnly.username = true ∨
          truthy socks5UserOnly.password = true)) := by
  decide

/-- Claim C5 (amended): the greeting the engine produces for a SOCKS5 hop
always advertises method `0x00`, and advertises method `0x02` if and only if
the hop descriptor carries both a truthy username and a truthy password. -/
theorem c5_methods_amended (p : Engine.ProxyDesc) :
    0 ∈ Engine.greetingMethodsFor p ∧
    (2 ∈ Engine.greetingMethodsFor p ↔
      (truthy p.username = true ∧ truthy p.password = true)) := by
  rcases p with ⟨addr, port, ptype, ou, ow⟩
  cases ou with
  | none =>
    simp [Engine.greetingMethodsFor, Engine.engineAuthObj, truthy,
      Socks5.requiresAuthOf, Socks5.greetingMethods]
  | some u =>
    cases ow with
    | none =>
      simp [Engine.greetingMethodsFor, Engine.engineAuthObj, truthy,
        Socks5.requiresAuthOf, Socks5.greetingMethods]
    | some w =>
      by_cases hu : u = ""
      · subst hu
        simp [Engine.greetingMethodsFor, Engine.engineAuthObj, truthy,
          Socks5.requiresAuthOf, Socks5.greetingMethods]
      · by_cases hw : w = ""
        · subst hw
          simp [Engine.greetingMethodsFor, Engine.engineAuthObj, truthy,
            Socks5.requiresAuthOf, Socks5.greetingMethods]
        · simp [Engine.greetingMethodsFor, Engine.engineAuthObj, truthy,
            Socks5.requiresAuthOf, Socks5.greetingMethods, jsGet, hu, hw]

/-- A SOCKS4 hop descriptor that carries both a username and a password. -/
def socks4WithCreds : Engine.ProxyDesc :=
  { address := "127.0.0.1", port := 1080, ptype := "socks4",
    username := some "u", password := some "p" }

/-- Claim C4: the engine's auth object has fields `username`/`password`, but
the SOCKS4 client reads `auth?.userid`, which is always `undefined`; so for a
hop carrying username `"u"` (and a password, the engine's condition for
passing auth at all) the CONNECT request carries a zero-length userid field
on the wire instead of the UTF-8 bytes of `"u"`.  The request bytes also show
the stray `0x00` at offset 8 left by the 9-byte buffer. -/
theorem c4_userid_dropped :
    Engine.socks4UseridArg socks4WithCreds = none ∧
    Engine.socks4ConnectFor socks4WithCreds "1.2.3.4" 80 =
      .ok [4, 1, 0, 80, 1, 2, 3, 4, 0, 0] ∧
    Socks4.useridOnWire [4, 1, 0, 80, 1, 2, 3, 4, 0, 0] = [] ∧
    utf8Encode "u" = [117] :=
  ⟨by decide, by rfl, by decide, by decide⟩

/-- Claim C6, counterexample: a SOCKS4 negotiation whose target is the IPv6
literal `"::1"` does not fail — the client treats every non-IPv4 address as a
SOCKS4a hostname and sends a CONNECT request with DSTIP `0.0.0.1` and the
literal appended NUL-terminated. -/
theorem c6_ipv6_socks4a_counterexample :
    Socks4.connect "::1" 80 none =
      .ok [4, 1, 0, 80, 0, 0, 0, 1, 0, 0, 58, 58, 49, 0] := by
  rfl

/-- Claim C6 (amended): for any IPv6-literal target (hex digits and colons,
at least one colon) and a port in 1..=65535, the SOCKS4 client does not
raise an error; it selects SOCKS4a and sends the CONNECT request built for
the literal as a hostname. -/
theorem c6_socks4a_amended (address : String) (port : Nat) (userid : Option String)
    (h6 : Socks5.isIPv6Str address = true) (hp1 : 1 ≤ port) (hp2 : port ≤ 65535) :
    Socks4.connect address port userid =
      .ok (Socks4.requestBytes address port userid true) := by
  have hne : ¬(address = "") := by
    intro he
    rw [he] at h6
    exact absurd h6 (by decide)
  have h4 : Socks4.isIPv4Str address = false := by
    unfold Socks4.isIPv4Str
    cases hm : ipv4RegexMatch address
    · rfl
    · exact absurd (ipv4RegexMatch_dot hm) (isIPv6_no_dot h6)
  have hcond : ¬((decide (port < 1) || decide (port > 65535)) = true) := by
    simp only [Bool.or_eq_true, decide_eq_true_eq]
    omega
  unfold Socks4.connect
  rw [if_neg hne, if_neg hcond, h4]
  rfl

/-- Witness for C6's amended theorem at the IPv6 literal `"::1"`, port 80. -/
theorem c6_socks4a_amended_witness :
    Socks4.connect "::1" 80 none = .ok (Socks4.requestBytes "::1" 80 none true) :=
  c6_socks4a_amended "::1" 80 none (by decide) (by decide) (by decide)

/-! Helper lemmas about exact reads from a byte stream. -/

theorem readBytesS_exact (a b : List Nat) :
    Socks5.readBytesS a.length (a ++ b) = some (a, b) := by
  have hle : a.length ≤ (a ++ b).length := by simp
  simp [Socks5.readBytesS, hle, List.take_left, List.drop_left]

theorem readBytesS_cons4 (x0 x1 x2 x3 : Nat) (b : List Nat) :
    Socks5.readBytesS 4 (x0 :: x1 :: x2 :: x3 :: b) = some ([x0, x1, x2, x3], b) := by
  simpa using readBytesS_exact [x0, x1, x2, x3] b

theorem readBytesS_cons1 (x0 : Nat) (b : List Nat) :
    Socks5.readBytesS 1 (x0 :: b) = some ([x0], b) := by
  simpa using readBytesS_exact [x0] b

theorem readBytesS_block_port (block : List Nat) (ph pl : Nat) (rest : List Nat) :
    Socks5.readBytesS (block.length + 2) (block ++ ph :: pl :: rest) =
      some (block ++ [ph, pl], rest) := by
  have h := readBytesS_exact (block ++ [ph, pl]) rest
  simpa [List.append_assoc] using h

theorem byteAt_append_fst (l : List Nat) (x y : Nat) :
    Socks5.byteAt (l ++ [x, y]) l.length = x := by
  induction l with
  | nil => rfl
  | cons a t ih => simpa [Socks5.byteAt] using ih

theorem byteAt_append_snd (l : List Nat) (x y : Nat) :
    Socks5.byteAt (l ++ [x, y]) (l.length + 1) = y := by
  induction l with
  | nil => rfl
  | cons a t ih => simpa [Socks5.byteAt] using ih

/-- Claim C8, counterexample: two CONNECT responses that differ only in the
bound-address octets of the response block (9.9.9.9 versus 7.7.7.7) produce
identical results, whose `address` field is the *requested* target address —
the bound address is consumed but not returned, refuting "returns the bound
address … taken from that response block". -/
theorem c8_bound_address_counterexample :
    Socks5.handleConnectResponse "example.com" [5, 0, 0, 1, 9, 9, 9, 9, 0, 80] =
      .ok ({ addressType := 1, address := "example.com", port := 80 }, []) ∧
    Socks5.handleConnectResponse "example.com" [5, 0, 0, 1, 7, 7, 7, 7, 0, 80] =
      .ok ({ addressType := 1, address := "example.com", port := 80 }, []) :=
  ⟨by rfl, by rfl⟩

/-- Claim C8 (amended): for every successful SOCKS5 CONNECT negotiation the
client consumes a bound-address block sized by the response ATYP (4 bytes for
IPv4, 16 for IPv6, one length octet plus that many bytes for a domain) plus a
2-byte port, leaving the rest of the stream untouched; it returns the bound
port parsed from the response, but the address field of the result echoes the
requested target address rather than the bound address of the response. -/
theorem c8_response_amended (addr : String) (block : List Nat) (ph pl : Nat)
    (rest : List Nat) :
    (block.length = 4 →
      Socks5.handleConnectResponse addr ([5, 0, 0, 1] ++ block ++ ph :: pl :: rest) =
        .ok ({ addressType := 1, address := addr, port := (ph <<< 8) ||| pl }, rest)) ∧
    (block.length = 16 →
      Socks5.handleConnectResponse addr ([5, 0, 0, 4] ++ block ++ ph :: pl :: rest) =
        .ok ({ addressType := 4, address := addr, port := (ph <<< 8) ||| pl }, rest)) ∧
    (Socks5.handleConnectResponse addr
        ([5, 0, 0, 3] ++ block.length :: block ++ ph :: pl :: rest) =
      .ok ({ addressType := 3, address := addr, port := (ph <<< 8) ||| pl }, rest)) := by
  have hfst := byteAt_append_fst block ph pl
  have hsnd := byteAt_append_snd block ph pl
  have hread := readBytesS_block_port block ph pl rest
  refine ⟨fun hb => ?_, fun hb => ?_, ?_⟩
  · rw [hb] at hread hfst hsnd
    simp only [List.append_assoc, List.cons_append, List.nil_append]
    simp [Socks5.handleConnectResponse, Socks5.byteAt, readBytesS_cons4,
      hread, hfst, hsnd]
  · rw [hb] at hread hfst hsnd
    simp only [List.append_assoc, List.cons_append, List.nil_append]
    simp [Socks5.handleConnectResponse, Socks5.byteAt, readBytesS_cons4,
      hread, hfst, hsnd]
  · simp only [List.append_assoc, List.cons_append, List.nil_append]
    simp [Socks5.handleConnectResponse, Socks5.byteAt, readBytesS_cons4,
      readBytesS_cons1, hread, hfst, hsnd]

/-- Witness for C8's amended theorem: an IPv4-typed response block
`[9, 9, 9, 9]` with port bytes `[0, 80]` for the request to
`"example.com"`. -/
theorem c8_response_amended_witness :
    Socks5.handleConnectResponse "example.com"
        ([5, 0, 0, 1] ++ [9, 9, 9, 9] ++ 0 :: 80 :: []) =
      .ok ({ addressType := 1, address := "example.com",
             port := ((0 : Nat) <<< 8) ||| 80 }, []) :=
  (c8_response_amended "example.com" [9, 9, 9, 9] 0 80 []).1 (by decide)

/-- Claim C3, counterexample: the server's 200 response is followed by the
two bytes `"XY"` arriving within the drain window; after the header
terminator the client keeps reading — `readRemainingData` — and consumes
them (they end up in `remainingData`, and the unconsumed remainder of the
stream is empty instead of `"XY"`). -/
theorem c3_beyond_terminator_counterexample :
    Http.handleResponse ("HTTP/1.1 200 OK\r\n\r\nXY".data) [] =
      .ok ({ statusCode := 200, statusMessage := "OK", headers := [],
             remainingData := "XY" }, []) ∧ "XY" ≠ "" :=
  ⟨by rfl, by decide⟩

/-- Claim C3 (amended): on a 200 response the client reads the status line
and the header lines up to and including the blank line, and then
additionally drains every byte that arrives within `readRemainingData`'s
quiet window (the whole remainder of `avail`), returning it in
`remainingData`; only data arriving after the window (`later`) is left
unconsumed for the caller. -/
theorem c3_drain_amended (avail later statusLine afterStatus : List Char)
    (msg : String) (lines : List String) (afterHeaders : List Char)
    (h1 : Http.takeUntilCRLF avail = some (statusLine, afterStatus))
    (h2 : Http.parseStatusLine statusLine = some (200, msg))
    (h3 : Http.readHeaders afterStatus.length afterStatus = some (lines, afterHeaders)) :
    Http.handleResponse avail later =
      .ok ({ statusCode := 200, statusMessage := msg,
             headers := Http.parseHeaderMap lines,
             remainingData := String.mk afterHeaders }, later) := by
  simp [Http.handleResponse, h1, h2, h3]

/-- Witness for C3's amended theorem on a concrete 200 response with one
header line and two trailing bytes inside the drain window. -/
theorem c3_drain_amended_witness :
    Http.handleResponse ("HTTP/1.1 200 OK\r\nServer: x\r\n\r\nXY".data) ['Z'] =
      .ok ({ statusCode := 200, statusMessage := "OK",
             headers := Http.parseHeaderMap ["Server: x"],
             remainingData := String.mk ['X', 'Y'] }, ['Z']) :=
  c3_drain_amended ("HTTP/1.1 200 OK\r\nServer: x\r\n\r\nXY".data) ['Z']
    ("HTTP/1.1 200 OK".data) ("Server: x\r\n\r\nXY".data) "OK" ["Server: x"]
    ['X', 'Y'] (by rfl) (by rfl) (by rfl)

/-- A header line that the loop skips leaves the accumulated map unchanged. -/
theorem parseHeaderLine_skip (m : List (String × String)) (line : String)
    (h : Http.storedHeaderLine line = false) :
    Http.parseHeaderLine m line = m := by
  unfold Http.parseHeaderLine
  unfold Http.storedHeaderLine at h
  cases hc : Http.colonIdx line.data with
  | none => simp
  | some i =>
    rw [hc] at h
    simp only [decide_eq_false_iff_not] at h
    simp [h]

/-- Folding the header loop over any lines equals folding it over just the
stored ones. -/
theorem foldl_parseHeaderLine_filter :
    ∀ (lines : List String) (m : List (String × String)),
      lines.foldl Http.parseHeaderLine m =
        (lines.filter Http.storedHeaderLine).foldl Http.parseHeaderLine m
  | [], _ => rfl
  | line :: rest, m => by
    cases hs : Http.storedHeaderLine line
    · rw [List.foldl_cons, parseHeaderLine_skip m line hs,
        List.filter_cons_of_neg (by simp [hs]),
        foldl_parseHeaderLine_filter rest m]
    · rw [List.foldl_cons, List.filter_cons_of_pos (by simp [hs]), List.foldl_cons,
        foldl_parseHeaderLine_filter rest (Http.parseHeaderLine m line)]

/-- Claim C10: a header line before the blank terminator that contains no
colon, or whose first character is a colon, is silently discarded — it
leaves the header map untouched and never fails — and the resulting header
map is exactly the one built from the stored (colon-at-positive-index)
lines. -/
theorem c10_malformed_header_lines :
    (∀ (m : List (String × String)) (line : String),
      Http.storedHeaderLine line = false → Http.parseHeaderLine m line = m) ∧
    (∀ lines : List String,
      Http.parseHeaderMap lines =
        Http.parseHeaderMap (lines.filter Http.storedHeaderLine)) :=
  ⟨parseHeaderLine_skip,
   fun lines => foldl_parseHeaderLine_filter lines []⟩

/-- Witness for C10: a colon-free line and a leading-colon line are dropped
from a concrete header list without affecting the stored header. -/
theorem c10_malformed_header_lines_witness :
    Http.parseHeaderLine [] "garbage line" = [] ∧
    Http.parseHeaderMap ["Server: x", "garbage line", ": empty"] =
      Http.parseHeaderMap (["Server: x", "garbage line", ": empty"].filter
        Http.storedHeaderLine) :=
  ⟨c10_malformed_header_lines.1 [] "garbage line" (by decide),
   c10_malformed_header_lines.2 ["Server: x", "garbage line", ": empty"]⟩

/-- A demonstration hop descriptor used in concrete engine runs. -/
def hopA : Engine.ProxyDesc :=
  { address := "10.0.0.1", port := 1080, ptype := "socks5" }

/-- A second demonstration hop descriptor. -/
def hopB : Engine.ProxyDesc :=
  { address := "10.0.0.2", port := 1081, ptype := "socks4" }

/-- A third demonstration hop descriptor. -/
def hopC : Engine.ProxyDesc :=
  { address := "10.0.0.3", port := 8080, ptype := "http" }

/-- The hop loop on an all-successful script: succeeds, pushes one record
per hop in order — `proxy_to_proxy` for every hop but the last, then one
`proxy_to_target` — with 1-based indices starting at `i + 1`. -/
theorem loopHops_allOk :
    ∀ (hops : List Engine.ProxyDesc) (i : Nat) (tA : String) (tP : Nat),
      hops ≠ [] →
      (Engine.loopHops hops (List.replicate hops.length true) i tA tP).2 = true ∧
      (Engine.stepsOf
          (Engine.loopHops hops (List.replicate hops.length true) i tA tP).1).map
            Engine.StepRec.kind =
        List.replicate (hops.length - 1) Engine.StepKind.proxy_to_proxy ++
          [Engine.StepKind.proxy_to_target] ∧
      (Engine.stepsOf
          (Engine.loopHops hops (List.replicate hops.length true) i tA tP).1).map
            Engine.StepRec.step =
        List.range' (i + 1) hops.length
  | [], _, _, _, h => absurd rfl h
  | [p], i, tA, tP, _ => by
    simp [Engine.loopHops, Engine.stepsOf, List.range']
  | p :: q :: rest, i, tA, tP, _ => by
    have ih := loopHops_allOk (q :: rest) (i + 1) tA tP (by simp)
    simp only [List.length_cons, List.replicate_succ, Engine.loopHops,
      List.headD_cons, if_true, List.tail_cons] at ih ⊢
    rcases ih with ⟨ihOk, ihKinds, ihSteps⟩
    refine ⟨ihOk, ?_, ?_⟩
    · simpa [Engine.stepsOf, List.replicate_succ, List.cons_append] using ihKinds
    · simpa [Engine.stepsOf, List.range'] using ihSteps

/-- Claim C2, counterexample: a successful one-hop `buildChain` produces a
single step record — the `direct` open — and no `proxy_to_target` record,
not the claimed N + 1 = 2 records. -/
theorem c2_single_hop_counterexample :
    (Engine.buildChainRun [hopA] "t.example" 443 true [true] none).2 = true ∧
    Engine.stepsOf (Engine.buildChainRun [hopA] "t.example" 443 true [true] none).1 =
      [{ step := 1, kind := .direct, proxy := hopA }] ∧
    (Engine.stepsOf
        (Engine.buildChainRun [hopA] "t.example" 443 true [true] none).1).length ≠ 1 + 1 :=
  ⟨by decide, by decide, by decide⟩

/-- Claim C2 (amended): a successful `buildChain` over a chain of N ≥ 2 hops
produces exactly N + 1 step records in order — one `direct` record, then one
record per hop, `proxy_to_proxy` for each intermediate hop and a final
`proxy_to_target` — with the `direct` record and the first hop record both
carrying index 1; for N = 1 it produces exactly one record, the `direct`
open, and no `proxy_to_target` record. -/
theorem c2_steps_amended (p : Engine.ProxyDesc) (proxies : List Engine.ProxyDesc)
    (tA : String) (tP : Nat) (htA : ¬(tA = "")) (htP : ¬(tP = 0)) :
    (Engine.buildChainRun (p :: proxies) tA tP true
        (List.replicate (p :: proxies).length true) none).2 = true ∧
    (proxies = [] →
      Engine.stepsOf (Engine.buildChainRun (p :: proxies) tA tP true
          (List.replicate (p :: proxies).length true) none).1 =
        [{ step := 1, kind := .direct, proxy := p }]) ∧
    (proxies ≠ [] →
      (Engine.stepsOf (Engine.buildChainRun (p :: proxies) tA tP true
          (List.replicate (p :: proxies).length true) none).1).map
            Engine.StepRec.kind =
        Engine.StepKind.direct ::
          (List.replicate proxies.length Engine.StepKind.proxy_to_proxy ++
            [Engine.StepKind.proxy_to_target]) ∧
      (Engine.stepsOf (Engine.buildChainRun (p :: proxies) tA tP true
          (List.replicate (p :: proxies).length true) none).1).map
            Engine.StepRec.step =
        1 :: List.range' 1 (p :: proxies).length) := by
  have hval : (Engine.buildChainRun (p :: proxies) tA tP true
      (List.replicate (p :: proxies).length true) none) =
      Engine.internalRun (p :: proxies) tA tP true
        (List.replicate (p :: proxies).length true) := by
    simp [Engine.buildChainRun, htA, htP]
  rw [hval]
  cases proxies with
  | nil =>
    refine ⟨rfl, fun _ => rfl, fun hne => absurd rfl hne⟩
  | cons q rest =>
    have hl := loopHops_allOk (p :: q :: rest) 0 tA tP (by simp)
    rcases hl with ⟨hOk, hKinds, hSteps⟩
    refine ⟨?_, ?_, ?_⟩
    · simpa [Engine.internalRun] using hOk
    · intro he
      exact absurd he (by simp)
    · intro _
      constructor
      · simpa [Engine.internalRun, Engine.stepsOf, Nat.succ_sub_one] using hKinds
      · simpa [Engine.internalRun, Engine.stepsOf] using hSteps

/-- Witness for C2's amended theorem: a one-hop chain yields exactly the
`direct` record, and a three-hop chain yields kinds `direct`,
`proxy_to_proxy`, `proxy_to_proxy`, `proxy_to_target`. -/
theorem c2_steps_amended_witness :
    Engine.stepsOf (Engine.buildChainRun [hopA] "t.example" 443 true
        (List.replicate 1 true) none).1 =
      [{ step := 1, kind := .direct, proxy := hopA }] ∧
    (Engine.stepsOf (Engine.buildChainRun [hopA, hopB, hopC] "t.example" 443 true
        (List.replicate 3 true) none).1).map Engine.StepRec.kind =
      Engine.StepKind.direct ::
        (List.replicate 2 Engine.StepKind.proxy_to_proxy ++
          [Engine.StepKind.proxy_to_target]) :=
  ⟨(c2_steps_amended hopA [] "t.example" 443 (by decide) (by decide)).2.1 rfl,
   ((c2_steps_amended hopA [hopB, hopC] "t.example" 443 (by decide)
      (by decide)).2.2 (by simp)).1⟩

/-- Claim C1: when the total timeout fires while a hop negotiation is still
in flight — here after the transport to the one-hop chain's proxy was opened
and registered (3 of the internal build's actions done) — `buildChain`
returns a failure, yet the transport is still a member of
`activeConnections` and `close()` has not been invoked on it: the engine
still holds a socket of the failed attempt.  The cleanup in `buildChain`'s
catch block never runs because its `currentSocket` is never assigned. -/
theorem c1_timeout_leak :
    (Engine.buildChainRun [hopA] "t.example" 443 true [false] (some 3)).2 = false ∧
    (Engine.finalState
        (Engine.buildChainRun [hopA] "t.example" 443 true [false] (some 3)).1).inActive
      = true ∧
    (Engine.finalState
        (Engine.buildChainRun [hopA] "t.example" 443 true [false] (some 3)).1).closed
      = false :=
  ⟨by decide, by decide, by decide⟩

/-- One engine operation other than `closeAll`, and other than a failing
build of this very socket, preserves membership in the live set. -/
theorem mem_active_applyOp (st : Engine.EngState) (op : Engine.EngineOp) (s : Nat)
    (hmem : s ∈ st.active) (hca : op ≠ .closeAll) (hbe : op ≠ .buildErr s) :
    s ∈ (Engine.applyOp st op).active := by
  cases op with
  | buildOk t => simp [Engine.applyOp, List.mem_insert_iff, hmem]
  | buildErr t =>
    have hts : ¬(s = t) := fun h => hbe (by rw [h])
    simp [Engine.applyOp]
    rw [List.mem_erase_of_ne hts]
    simp [List.mem_insert_iff, hmem]
  | timeoutBuild t => simp [Engine.applyOp, List.mem_insert_iff, hmem]
  | callerClose t => simpa [Engine.applyOp] using hmem
  | closeAll => exact absurd rfl hca

/-- Membership in the live set survives any operation sequence that contains
no `closeAll` and no failing build of this socket. -/
theorem mem_active_runOps :
    ∀ (ops : List Engine.EngineOp) (st : Engine.EngState) (s : Nat),
      s ∈ st.active → Engine.EngineOp.closeAll ∉ ops →
      Engine.EngineOp.buildErr s ∉ ops → s ∈ (Engine.runOps st ops).active
  | [], _, _, hmem, _, _ => hmem
  | op :: rest, st, s, hmem, hca, hbe => by
    have hca1 : op ≠ .closeAll := fun h => hca (by rw [h]; exact List.mem_cons_self _ _)
    have hbe1 : op ≠ .buildErr s := fun h => hbe (by rw [h]; exact List.mem_cons_self _ _)
    have hca2 : Engine.EngineOp.closeAll ∉ rest := fun h => hca (List.mem_cons_of_mem _ h)
    have hbe2 : Engine.EngineOp.buildErr s ∉ rest := fun h => hbe (List.mem_cons_of_mem _ h)
    exact mem_active_runOps rest (Engine.applyOp st op) s
      (mem_active_applyOp st op s hmem hca1 hbe1) hca2 hbe2

/-- Claim C9: a successful `buildChain` leaves its socket in the live set;
the socket stays a member across any later operations — other successful or
failing builds of other sockets, the caller closing the returned tunnel —
until a `closeAllConnections`; `closeAllConnections` invokes `close()` on
every member and empties the set; and `getStats` reports the set's size,
which a successful build of a fresh socket increments and `closeAll` resets
to zero. -/
theorem c9_live_set :
    (∀ (st : Engine.EngState) (s : Nat),
      s ∈ (Engine.applyOp st (.buildOk s)).active) ∧
    (∀ (st : Engine.EngState) (ops : List Engine.EngineOp) (s : Nat),
      Engine.EngineOp.closeAll ∉ ops → Engine.EngineOp.buildErr s ∉ ops →
      s ∈ (Engine.runOps (Engine.applyOp st (.buildOk s)) ops).active) ∧
    (∀ st : Engine.EngState,
      (Engine.applyOp st .closeAll).active = [] ∧
      ∀ s ∈ st.active, s ∈ (Engine.applyOp st .closeAll).closedSocks) ∧
    (∀ (st : Engine.EngState) (s : Nat), s ∉ st.active →
      Engine.getStatsActive (Engine.applyOp st (.buildOk s)) =
        Engine.getStatsActive st + 1) ∧
    (∀ st : Engine.EngState,
      Engine.getStatsActive (Engine.applyOp st .closeAll) = 0) := by
  refine ⟨?_, ?_, ?_, ?_, ?_⟩
  · intro st s
    simp [Engine.applyOp, List.mem_insert_iff]
  · intro st ops s hca hbe
    exact mem_active_runOps ops _ s
      (by simp [Engine.applyOp, List.mem_insert_iff]) hca hbe
  · intro st
    refine ⟨rfl, fun s hs => ?_⟩
    simp [Engine.applyOp, hs]
  · intro st s hs
    simp [Engine.applyOp, Engine.getStatsActive,
      List.length_insert_of_not_mem hs]
  · intro st
    rfl

/-- Witness for C9 on a concrete history: socket 1 is returned by a
successful build, survives a later successful build (socket 2), a failing
build (socket 3) and the caller closing socket 1, and `closeAll` then closes
every member and zeroes the count. -/
theorem c9_live_set_witness :
    (1 : Nat) ∈ (Engine.runOps
        (Engine.applyOp { active := [], closedSocks := [] } (.buildOk 1))
        [.buildOk 2, .buildErr 3, .callerClose 1]).active ∧
    Engine.getStatsActive
        (Engine.applyOp { active := [], closedSocks := [] } (.buildOk 1)) =
      Engine.getStatsActive { active := ([] : List Nat), closedSocks := [] } + 1 ∧
    (Engine.applyOp { active := [2, 1], closedSocks := [] } .closeAll).active = [] ∧
    Engine.getStatsActive
        (Engine.applyOp { active := [2, 1], closedSocks := [] } .closeAll) = 0 :=
  ⟨c9_live_set.2.1 { active := [], closedSocks := [] }
      [.buildOk 2, .buildErr 3, .callerClose 1] 1 (by decide) (by decide),
   c9_live_set.2.2.2.1 { active := [], closedSocks := [] } 1 (by decide),
   (c9_live_set.2.2.1 { active := [2, 1], closedSocks := [] }).1,
   c9_live_set.2.2.2.2 { active := [2, 1], closedSocks := [] }⟩

end ProxyChain
